import Mathlib

/-!
Shallow embedding of the VM Lifecycle Orchestration Core of ProxmoxMCP
(`src/proxmox_mcp/tools/vm.py`, class `VMTools`), together with theorems
settling the specification claims about it.

Modelling conventions:
* A Python exception is `Exc`: the code distinguishes `ValueError` (raised
  locally by the status guards) from every other exception class, and for
  `delete_vm` additionally inspects the exception text, so an exception is
  modelled as its class tag plus its message string.
* Each remote call site (`status.current.get`, `status.start.post`, ...) is
  an input to the embedded function: an `Except Exc α` value describing what
  that call would do (return a value or raise).  Each operation also returns
  the list of remote calls it actually issued, in order, so that "the remote
  action is never called" is a statement about the returned trace.
* The dynamically typed return value of an action post is `PyVal`: either a
  Python `str` or anything else (`isinstance(result, str)` is the only test
  the code performs on it).
* `ProxmoxTool._handle_error` lives in `tools/base.py`, which is not among
  the sources; it is modelled from the spec (see its doc comment).
-/

namespace ProxmoxMCP

/-- A Python exception as the lifecycle code observes it: its class
(`ValueError` versus any other exception class) and its message (`str(e)`). -/
inductive Exc where
  | valueError (msg : String)
  | otherError (msg : String)
deriving DecidableEq, Repr

/-- `str(e)`: the message text of an exception. -/
def Exc.text : Exc → String
  | .valueError m => m
  | .otherError m => m

/-- The two-kind error taxonomy of the spec: a `ValueError` raised by a status
guard (Precondition Violation) or a wrapped remote failure (`RuntimeError`,
Remote Operation Failure). -/
inductive Error where
  | preconditionViolation (msg : String)
  | remoteOpFailure (msg : String)
deriving DecidableEq, Repr

/-- Modelled from the spec: `ProxmoxTool._handle_error` is defined in
`tools/base.py`, which is not among the provided sources (only its callers in
`tools/vm.py` and the tests are).  Per spec §4.4 and §7 the classifier maps a
locally raised precondition `ValueError` to a Precondition Violation carrying
its message unchanged, and every other exception to a Remote Operation
Failure whose message is the original message verbatim prefixed with the
operation context, e.g. `"Failed to start VM 100: <original>"`. -/
def handle_error (operation : String) : Exc → Error
  | .valueError m => .preconditionViolation m
  | .otherError m => .remoteOpFailure ("Failed to " ++ operation ++ ": " ++ m)

/-- The dynamically typed value returned by a remote action post: a Python
string or any non-string value (the code only tests `isinstance(result, str)`). -/
inductive PyVal where
  | str (s : String)
  | other
deriving DecidableEq, Repr

/-- `result if isinstance(result, str) else None` — the task-handle capture. -/
def upidOf : PyVal → Option String
  | .str s => some s
  | .other => none

/-- The remote call sites a lifecycle operation can reach. -/
inductive RemoteCall where
  | statusRead
  | startPost
  | stopPost
  | shutdownPost
  | rebootPost
  | deletePost
  | createPost
deriving DecidableEq, Repr

/-- The JSON response of start/stop/shutdown/restart/delete:
`{"success": ..., "message": ..., "upid": ...}`. -/
structure OpResponse where
  success : Bool
  message : String
  upid : Option String
deriving DecidableEq, Repr

/-- The JSON response of create: `{"success": ..., "message": ..., "vmid": ...}`. -/
structure CreateResponse where
  success : Bool
  message : String
  vmid : String
deriving DecidableEq, Repr

/-- `VMTools.start_vm`.  `statusRead` is the behaviour of
`nodes(node).qemu(vmid).status.current.get()` (projected to its `"status"`
field), `startPost` that of `status.start.post()`. -/
def start_vm (vmid : String) (statusRead : Except Exc String)
    (startPost : Except Exc PyVal) : Except Error OpResponse × List RemoteCall :=
  match statusRead with
  | .error e => (.error (handle_error ("start VM " ++ vmid) e), [.statusRead])
  | .ok status =>
    if status = "running" then
      (.error (handle_error ("start VM " ++ vmid)
        (.valueError ("VM " ++ vmid ++ " is already running"))), [.statusRead])
    else
      match startPost with
      | .error e =>
        (.error (handle_error ("start VM " ++ vmid) e), [.statusRead, .startPost])
      | .ok result =>
        (.ok { success := true
               message := "VM " ++ vmid ++ " started successfully"
               upid := upidOf result }, [.statusRead, .startPost])

/-- `VMTools.stop_vm`. -/
def stop_vm (vmid : String) (statusRead : Except Exc String)
    (stopPost : Except Exc PyVal) : Except Error OpResponse × List RemoteCall :=
  match statusRead with
  | .error e => (.error (handle_error ("stop VM " ++ vmid) e), [.statusRead])
  | .ok status =>
    if status = "stopped" then
      (.error (handle_error ("stop VM " ++ vmid)
        (.valueError ("VM " ++ vmid ++ " is already stopped"))), [.statusRead])
    else
      match stopPost with
      | .error e =>
        (.error (handle_error ("stop VM " ++ vmid) e), [.statusRead, .stopPost])
      | .ok result =>
        (.ok { success := true
               message := "VM " ++ vmid ++ " stopped successfully"
               upid := upidOf result }, [.statusRead, .stopPost])

/-- `VMTools.shutdown_vm`. -/
def shutdown_vm (vmid : String) (statusRead : Except Exc String)
    (shutdownPost : Except Exc PyVal) : Except Error OpResponse × List RemoteCall :=
  match statusRead with
  | .error e => (.error (handle_error ("shutdown VM " ++ vmid) e), [.statusRead])
  | .ok status =>
    if status = "stopped" then
      (.error (handle_error ("shutdown VM " ++ vmid)
        (.valueError ("VM " ++ vmid ++ " is already stopped"))), [.statusRead])
    else
      match shutdownPost with
      | .error e =>
        (.error (handle_error ("shutdown VM " ++ vmid) e), [.statusRead, .shutdownPost])
      | .ok result =>
        (.ok { success := true
               message := "VM " ++ vmid ++ " shutdown initiated"
               upid := upidOf result }, [.statusRead, .shutdownPost])

/-- `VMTools.restart_vm` (the logged operation name is `"reboot VM {vmid}"`). -/
def restart_vm (vmid : String) (statusRead : Except Exc String)
    (rebootPost : Except Exc PyVal) : Except Error OpResponse × List RemoteCall :=
  match statusRead with
  | .error e => (.error (handle_error ("reboot VM " ++ vmid) e), [.statusRead])
  | .ok status =>
    if status = "running" then
      match rebootPost with
      | .error e =>
        (.error (handle_error ("reboot VM " ++ vmid) e), [.statusRead, .rebootPost])
      | .ok result =>
        (.ok { success := true
               message := "VM " ++ vmid ++ " reboot initiated"
               upid := upidOf result }, [.statusRead, .rebootPost])
    else
      (.error (handle_error ("reboot VM " ++ vmid)
        (.valueError ("VM " ++ vmid ++ " is not running (current status: "
          ++ status ++ ")"))), [.statusRead])

/-- Character-list test: `pat` is an initial segment of `cs`. -/
def startsWithChars : List Char → List Char → Bool
  | [], _ => true
  | _ :: _, [] => false
  | a :: pat, b :: cs => a == b && startsWithChars pat cs

/-- Character-list test: `pat` occurs contiguously somewhere in `cs`
(Python's `pat in cs` on strings). -/
def hasSubChars (pat : List Char) : List Char → Bool
  | [] => startsWithChars pat []
  | b :: cs => startsWithChars pat (b :: cs) || hasSubChars pat cs

/-- Python `sub in s` substring membership. -/
def pyIn (sub s : String) : Bool :=
  hasSubChars sub.data s.data

/-- Python `s.lower()`. -/
def pyLower (s : String) : String :=
  ⟨s.data.map Char.toLower⟩

/-- The existence-check block of `VMTools.create_vm`:

```
try:
    self.proxmox.nodes(node).qemu(vmid).status.current.get()
    raise ValueError(f"VM {vmid} already exists")
except Exception:
    # VM doesn't exist, good to proceed
    pass
```

The `try` body either propagates the status read's exception or raises the
`"already exists"` `ValueError`; `except Exception: pass` then catches either
one, so the block always falls through. -/
def create_vm_existence_check (vmid : String) (statusRead : Except Exc String) :
    Except Exc Unit :=
  let body : Except Exc Unit :=
    match statusRead with
    | .error e => .error e
    | .ok _ => .error (.valueError ("VM " ++ vmid ++ " already exists"))
  match body with
  | .error _ => .ok ()
  | .ok u => .ok u

/-- The keyword arguments of `nodes(node).qemu.post(...)` in
`VMTools.create_vm`. -/
structure CreateSpec where
  vmid : String
  name : String
  ostype : String
  memory : Nat
  cores : Nat
  sockets : Nat
  scsi0 : String
  boot : String
  net0 : String
deriving DecidableEq, Repr

/-- `VMTools.create_vm`.  `createPost` is the behaviour of
`nodes(node).qemu.post(...)` as a function of its keyword arguments; the
call's return value is discarded, so success is modelled as `Unit`. -/
def create_vm (vmid name : String) (memory cores : Nat)
    (statusRead : Except Exc String)
    (createPost : CreateSpec → Except Exc Unit) :
    Except Error CreateResponse × List RemoteCall :=
  match create_vm_existence_check vmid statusRead with
  | .error e => (.error (handle_error ("create VM " ++ vmid) e), [.statusRead])
  | .ok _ =>
    match createPost
      { vmid := vmid
        name := name
        ostype := "l26"
        memory := memory
        cores := cores
        sockets := 1
        scsi0 := "local-zfs:1"
        boot := "order=scsi0"
        net0 := "virtio,bridge=vmbr0" } with
    | .error e =>
      (.error (handle_error ("create VM " ++ vmid) e), [.statusRead, .createPost])
    | .ok _ =>
      (.ok { success := true
             message := "VM " ++ vmid ++ " (" ++ name ++ ") created successfully"
             vmid := vmid }, [.statusRead, .createPost])

/-- The status-check block of `VMTools.delete_vm`:

```
try:
    vm_status = self.proxmox.nodes(node).qemu(vmid).status.current.get()
    if vm_status["status"] in ["running", "paused"]:
        raise ValueError(f"VM {vmid} must be stopped before deletion")
except Exception as e:
    if "not found" not in str(e).lower():
        raise
    # VM doesn't exist
    raise ValueError(f"VM {vmid} not found") from None
```

Note the guard's own `ValueError` is itself caught by `except Exception as e`
and re-inspected for the text `"not found"`. -/
def delete_vm_status_check (vmid : String) (statusRead : Except Exc String) :
    Except Exc Unit :=
  let body : Except Exc Unit :=
    match statusRead with
    | .error e => .error e
    | .ok status =>
      if status ∈ ["running", "paused"] then
        .error (.valueError ("VM " ++ vmid ++ " must be stopped before deletion"))
      else .ok ()
  match body with
  | .ok u => .ok u
  | .error e =>
    if pyIn "not found" (pyLower e.text) then
      .error (.valueError ("VM " ++ vmid ++ " not found"))
    else
      .error e

/-- `VMTools.delete_vm`.  `deletePost` is the behaviour of
`nodes(node).qemu(vmid).delete()`. -/
def delete_vm (vmid : String) (statusRead : Except Exc String)
    (deletePost : Except Exc PyVal) : Except Error OpResponse × List RemoteCall :=
  match delete_vm_status_check vmid statusRead with
  | .error e => (.error (handle_error ("delete VM " ++ vmid) e), [.statusRead])
  | .ok _ =>
    match deletePost with
    | .error e =>
      (.error (handle_error ("delete VM " ++ vmid) e), [.statusRead, .deletePost])
    | .ok result =>
      (.ok { success := true
             message := "VM " ++ vmid ++ " deleted successfully"
             upid := upidOf result }, [.statusRead, .deletePost])

/-- A coarse per-node VM entry as returned by `nodes(node).qemu.get()`:
`vm["vmid"]`, `vm["name"]`, `vm["status"]`, `vm.get("mem", 0)`,
`vm.get("maxmem", 0)` (`mem`/`maxmem` may be absent, hence `Option`). -/
structure CoarseVM where
  vmid : String
  name : String
  status : String
  mem : Option Nat
  maxmem : Option Nat
deriving DecidableEq, Repr

/-- A VM configuration as returned by `nodes(node).qemu(vmid).config.get()`:
only `config.get("cores", "N/A")` is consumed (`cores` may be absent). -/
structure VMConfig where
  cores : Option Nat
deriving DecidableEq, Repr

/-- The `"cpus"` field of an inventory record: a core count or the sentinel
string `"N/A"`. -/
inductive CpuField where
  | num (n : Nat)
  | na
deriving DecidableEq, Repr

/-- One entry of the `get_vms` aggregate result. -/
structure VMRecord where
  vmid : String
  name : String
  status : String
  node : String
  cpus : CpuField
  memUsed : Nat
  memTotal : Nat
deriving DecidableEq, Repr

/-- The per-VM body of the inner loop of `VMTools.get_vms`: try to fetch the
config for `cpus`; on any exception fall back to the same record with
`cpus = "N/A"`.  All other fields come from the coarse entry either way. -/
def enrichVM (configGet : String → String → Except Exc VMConfig)
    (nodeName : String) (vm : CoarseVM) : VMRecord :=
  match configGet nodeName vm.vmid with
  | .ok config =>
    { vmid := vm.vmid
      name := vm.name
      status := vm.status
      node := nodeName
      cpus := match config.cores with
        | some n => .num n
        | none => .na
      memUsed := vm.mem.getD 0
      memTotal := vm.maxmem.getD 0 }
  | .error _ =>
    { vmid := vm.vmid
      name := vm.name
      status := vm.status
      node := nodeName
      cpus := .na
      memUsed := vm.mem.getD 0
      memTotal := vm.maxmem.getD 0 }

/-- The node loop of `VMTools.get_vms`: for each node, enumerate its VMs
(`vmsGet`, a raising remote call) and append one record per VM; an exception
from any node's enumeration propagates and discards everything. -/
def get_vms_loop (vmsGet : String → Except Exc (List CoarseVM))
    (configGet : String → String → Except Exc VMConfig) :
    List String → Except Exc (List VMRecord)
  | [] => .ok []
  | n :: rest =>
    match vmsGet n with
    | .error e => .error e
    | .ok vms =>
      match get_vms_loop vmsGet configGet rest with
      | .error e => .error e
      | .ok tail => .ok (vms.map (enrichVM configGet n) ++ tail)

/-- `VMTools.get_vms`.  `nodesGet` is the behaviour of `nodes.get()`
(projected to each entry's `"node"` field), `vmsGet n` that of
`nodes(n).qemu.get()`, `configGet n vmid` that of
`nodes(n).qemu(vmid).config.get()`.  The whole body is wrapped in one
`try/except` whose handler is `self._handle_error("get VMs", e)`. -/
def get_vms (nodesGet : Except Exc (List String))
    (vmsGet : String → Except Exc (List CoarseVM))
    (configGet : String → String → Except Exc VMConfig) :
    Except Error (List VMRecord) :=
  let body : Except Exc (List VMRecord) :=
    match nodesGet with
    | .error e => .error e
    | .ok nodes => get_vms_loop vmsGet configGet nodes
  match body with
  | .ok r => .ok r
  | .error e => .error (handle_error "get VMs" e)

/-! ## Theorems settling the claims -/

/-- C2: for a VM observed `"running"`, `start_vm` raises the Precondition
Violation `"VM {vmid} is already running"`; for a VM observed `"stopped"`,
`stop_vm` and `shutdown_vm` raise `"VM {vmid} is already stopped"`; in each
case only the status read was issued, never the remote start/stop/shutdown
post. -/
theorem start_stop_shutdown_already_in_state (vmid : String)
    (post : Except Exc PyVal) :
    start_vm vmid (.ok "running") post =
      (.error (.preconditionViolation ("VM " ++ vmid ++ " is already running")),
       [.statusRead]) ∧
    stop_vm vmid (.ok "stopped") post =
      (.error (.preconditionViolation ("VM " ++ vmid ++ " is already stopped")),
       [.statusRead]) ∧
    shutdown_vm vmid (.ok "stopped") post =
      (.error (.preconditionViolation ("VM " ++ vmid ++ " is already stopped")),
       [.statusRead]) := by
  refine ⟨?_, ?_, ?_⟩ <;> simp [start_vm, stop_vm, shutdown_vm, handle_error]

/-- C4: for any observed status other than `"running"`, `restart_vm` raises
the Precondition Violation `"VM {vmid} is not running (current status:
{status})"` with no remote reboot issued; when the status is `"running"` the
remote reboot post is issued. -/
theorem restart_vm_not_running_guard (vmid status : String)
    (post : Except Exc PyVal) (h : status ≠ "running") :
    restart_vm vmid (.ok status) post =
      (.error (.preconditionViolation
        ("VM " ++ vmid ++ " is not running (current status: " ++ status ++ ")")),
       [.statusRead]) ∧
    (restart_vm vmid (.ok "running") post).2 = [.statusRead, .rebootPost] := by
  constructor
  · simp [restart_vm, handle_error, h]
  · cases post <;> simp [restart_vm]

/-- Witness for `restart_vm_not_running_guard` at vmid 100, status
`"paused"`. -/
theorem restart_vm_not_running_guard_witness :
    restart_vm "100" (.ok "paused") (.ok .other) =
      (.error (.preconditionViolation
        "VM 100 is not running (current status: paused)"), [.statusRead]) ∧
    (restart_vm "100" (.ok "running") (.ok .other)).2 =
      [.statusRead, .rebootPost] := by
  have h := restart_vm_not_running_guard "100" "paused" (.ok .other) (by decide)
  exact ⟨h.1, h.2⟩

/-- C7: each guard is a denylist: any observed status outside the
operation's denylist (only `"running"` for start; only `"stopped"` for stop
and shutdown; only `"running"`/`"paused"` for delete) lets the transition
proceed and the corresponding remote action post is issued. -/
theorem guards_are_denylists (vmid st : String) (post : Except Exc PyVal) :
    (st ≠ "running" →
      (start_vm vmid (.ok st) post).2 = [.statusRead, .startPost]) ∧
    (st ≠ "stopped" →
      (stop_vm vmid (.ok st) post).2 = [.statusRead, .stopPost]) ∧
    (st ≠ "stopped" →
      (shutdown_vm vmid (.ok st) post).2 = [.statusRead, .shutdownPost]) ∧
    (st ≠ "running" → st ≠ "paused" →
      (delete_vm vmid (.ok st) post).2 = [.statusRead, .deletePost]) := by
  refine ⟨fun h => ?_, fun h => ?_, fun h => ?_, fun h1 h2 => ?_⟩
  · cases post <;> simp [start_vm, h]
  · cases post <;> simp [stop_vm, h]
  · cases post <;> simp [shutdown_vm, h]
  · cases post <;> simp [delete_vm, delete_vm_status_check, h1, h2]

/-- Witness for `guards_are_denylists`: `"paused"` lets start proceed, and an
unrecognized status `"suspended"` lets delete proceed. -/
theorem guards_are_denylists_witness :
    (start_vm "100" (.ok "paused") (.ok .other)).2 =
      [.statusRead, .startPost] ∧
    (delete_vm "100" (.ok "suspended") (.ok .other)).2 =
      [.statusRead, .deletePost] :=
  ⟨(guards_are_denylists "100" "paused" (.ok .other)).1 (by decide),
   (guards_are_denylists "100" "suspended" (.ok .other)).2.2.2
     (by decide) (by decide)⟩

/-- C10: the existence-check block of `create_vm` always falls through (its
`except Exception: pass` catches even the locally raised `"already exists"`
`ValueError`), so for every behaviour of the status read and of the remote
create, control reaches the remote create call: the issued-call trace is
always exactly status read followed by create post. -/
theorem create_vm_existence_check_never_aborts (vmid name : String)
    (memory cores : Nat) (statusRead : Except Exc String)
    (createPost : CreateSpec → Except Exc Unit) :
    create_vm_existence_check vmid statusRead = .ok () ∧
    (create_vm vmid name memory cores statusRead createPost).2 =
      [.statusRead, .createPost] := by
  have hcheck : create_vm_existence_check vmid statusRead = .ok () := by
    cases statusRead <;> simp [create_vm_existence_check]
  refine ⟨hcheck, ?_⟩
  unfold create_vm
  rw [hcheck]
  cases h : createPost
    { vmid := vmid
      name := name
      ostype := "l26"
      memory := memory
      cores := cores
      sockets := 1
      scsi0 := "local-zfs:1"
      boot := "order=scsi0"
      net0 := "virtio,bridge=vmbr0" } <;> simp [h]

/-- C1 (the code at the claim's failing input): with an existing VM — the
status read succeeds with `"stopped"` — and a succeeding remote create,
`create_vm` does not raise `"VM 100 already exists"`: it issues the remote
create and returns success, because its `except Exception: pass` swallows the
locally raised `ValueError`. -/
theorem create_vm_existing_vm_proceeds :
    create_vm "100" "test-vm" 512 1 (.ok "stopped") (fun _ => .ok ()) =
      (.ok { success := true
             message := "VM 100 (test-vm) created successfully"
             vmid := "100" },
       [.statusRead, .createPost]) := rfl

/-- C3 counterexample: the claim fails for a vmid whose guard message itself
contains `"not found"`.  For vmid `"not found"` with observed status
`"running"`, the guard's `ValueError` `"VM not found must be stopped before
deletion"` is caught by `except Exception as e`, matches the
`"not found" in str(e).lower()` test, and is replaced by `"VM not found not
found"` — not the message the claim requires (the remote delete is still not
called). -/
theorem delete_vm_running_message_counterexample :
    delete_vm "not found" (.ok "running") (.ok .other) =
      (.error (.preconditionViolation "VM not found not found"),
       [.statusRead]) ∧
    ("VM not found not found" : String) ≠
      "VM not found must be stopped before deletion" :=
  ⟨rfl, by decide⟩

/-- C3 (amended): for every VM observed `"running"` or `"paused"` whose guard
message `"VM {vmid} must be stopped before deletion"` does not itself contain
`"not found"` case-insensitively, `delete_vm` raises that Precondition
Violation and the remote delete is never called; and whenever the status read
fails with an exception whose text contains `"not found"` case-insensitively,
`delete_vm` raises `"VM {vmid} not found"` without calling the remote
delete. -/
theorem delete_vm_guard_amended (vmid st : String) (post : Except Exc PyVal)
    (hst : st = "running" ∨ st = "paused")
    (hvm : pyIn "not found"
      (pyLower ("VM " ++ vmid ++ " must be stopped before deletion")) = false) :
    delete_vm vmid (.ok st) post =
      (.error (.preconditionViolation
        ("VM " ++ vmid ++ " must be stopped before deletion")),
       [.statusRead]) ∧
    ∀ e : Exc, pyIn "not found" (pyLower e.text) = true →
      delete_vm vmid (.error e) post =
        (.error (.preconditionViolation ("VM " ++ vmid ++ " not found")),
         [.statusRead]) := by
  constructor
  · have hmem : st ∈ ["running", "paused"] := by
      rcases hst with h | h <;> simp [h]
    simp [delete_vm, delete_vm_status_check, hmem, hvm, Exc.text, handle_error]
  · intro e he
    simp [delete_vm, delete_vm_status_check, he, handle_error]

/-- Witness for `delete_vm_guard_amended` at vmid 100, status `"running"`,
and a status read failing with `"VM not found"`. -/
theorem delete_vm_guard_amended_witness :
    delete_vm "100" (.ok "running") (.ok .other) =
      (.error (.preconditionViolation
        "VM 100 must be stopped before deletion"), [.statusRead]) ∧
    delete_vm "100" (.error (.otherError "VM not found")) (.ok .other) =
      (.error (.preconditionViolation "VM 100 not found"), [.statusRead]) := by
  have h := delete_vm_guard_amended "100" "running" (.ok .other)
    (Or.inl rfl) (by decide)
  exact ⟨h.1, h.2 (.otherError "VM not found") (by decide)⟩

/-- C5: on every guarded transition that reaches its remote action — any
status outside the operation's own denylist, so in particular start from
`"stopped"`, stop/shutdown from `"running"`, restart from `"running"`,
delete from `"stopped"` — and gets a return value back, the response's task
handle (`upid`) is exactly that value when it is a string and `null`
(`none`) when it is not — never synthesized from anything else. -/
theorem task_handle_roundtrip (vmid st : String) (r : PyVal) :
    (st ≠ "running" →
      (start_vm vmid (.ok st) (.ok r)).1 =
        .ok { success := true
              message := "VM " ++ vmid ++ " started successfully"
              upid := match r with | .str s => some s | .other => none }) ∧
    (st ≠ "stopped" →
      (stop_vm vmid (.ok st) (.ok r)).1 =
        .ok { success := true
              message := "VM " ++ vmid ++ " stopped successfully"
              upid := match r with | .str s => some s | .other => none }) ∧
    (st ≠ "stopped" →
      (shutdown_vm vmid (.ok st) (.ok r)).1 =
        .ok { success := true
              message := "VM " ++ vmid ++ " shutdown initiated"
              upid := match r with | .str s => some s | .other => none }) ∧
    ((restart_vm vmid (.ok "running") (.ok r)).1 =
      .ok { success := true
            message := "VM " ++ vmid ++ " reboot initiated"
            upid := match r with | .str s => some s | .other => none }) ∧
    (st ≠ "running" → st ≠ "paused" →
      (delete_vm vmid (.ok st) (.ok r)).1 =
        .ok { success := true
              message := "VM " ++ vmid ++ " deleted successfully"
              upid := match r with | .str s => some s | .other => none }) := by
  refine ⟨fun h => ?_, fun h => ?_, fun h => ?_, ?_, fun h1 h2 => ?_⟩ <;>
    cases r <;>
      simp [start_vm, stop_vm, shutdown_vm, restart_vm, delete_vm,
        delete_vm_status_check, upidOf, *]

/-- Witness for `task_handle_roundtrip` on the normal reaching statuses:
start from `"stopped"`, stop from `"running"`, delete from `"stopped"`, with
a remote return value that is the string `"UPID:node1:000:qmstart:"`. -/
theorem task_handle_roundtrip_witness :
    (start_vm "100" (.ok "stopped")
        (.ok (.str "UPID:node1:000:qmstart:"))).1 =
      .ok { success := true
            message := "VM 100 started successfully"
            upid := some "UPID:node1:000:qmstart:" } ∧
    (stop_vm "100" (.ok "running")
        (.ok (.str "UPID:node1:000:qmstart:"))).1 =
      .ok { success := true
            message := "VM 100 stopped successfully"
            upid := some "UPID:node1:000:qmstart:" } ∧
    (shutdown_vm "100" (.ok "running")
        (.ok (.str "UPID:node1:000:qmstart:"))).1 =
      .ok { success := true
            message := "VM 100 shutdown initiated"
            upid := some "UPID:node1:000:qmstart:" } ∧
    (restart_vm "100" (.ok "running")
        (.ok (.str "UPID:node1:000:qmstart:"))).1 =
      .ok { success := true
            message := "VM 100 reboot initiated"
            upid := some "UPID:node1:000:qmstart:" } ∧
    (delete_vm "100" (.ok "stopped")
        (.ok (.str "UPID:node1:000:qmstart:"))).1 =
      .ok { success := true
            message := "VM 100 deleted successfully"
            upid := some "UPID:node1:000:qmstart:" } := by
  have hs := task_handle_roundtrip "100" "stopped" (.str "UPID:node1:000:qmstart:")
  have hr := task_handle_roundtrip "100" "running" (.str "UPID:node1:000:qmstart:")
  exact ⟨hs.1 (by decide), hr.2.1 (by decide), hr.2.2.1 (by decide),
    hs.2.2.2.1, hs.2.2.2.2 (by decide) (by decide)⟩

/-- C8: every remote-raised exception in a lifecycle operation is classified
into exactly the two-kind taxonomy, and a non-`ValueError` remote exception
with any message `m` — whether from the status read or from the action call
of any of the six operations — becomes a Remote Operation Failure whose
message is `m` verbatim behind the operation-context prefix (`"Failed to
start VM {vmid}: {m}"`, ...).  The single reinterpretation point is
`delete_vm`'s status read, where a remote message containing `"not found"`
becomes the `"VM {vmid} not found"` Precondition Violation instead — still
one of the two kinds, as the final conjunct states for every behaviour of
every operation. -/
theorem remote_failure_classification (vmid name m : String)
    (post : Except Exc PyVal) :
    (start_vm vmid (.error (.otherError m)) post).1 =
      .error (.remoteOpFailure ("Failed to start VM " ++ vmid ++ ": " ++ m)) ∧
    (start_vm vmid (.ok "stopped") (.error (.otherError m))).1 =
      .error (.remoteOpFailure ("Failed to start VM " ++ vmid ++ ": " ++ m)) ∧
    (stop_vm vmid (.error (.otherError m)) post).1 =
      .error (.remoteOpFailure ("Failed to stop VM " ++ vmid ++ ": " ++ m)) ∧
    (stop_vm vmid (.ok "running") (.error (.otherError m))).1 =
      .error (.remoteOpFailure ("Failed to stop VM " ++ vmid ++ ": " ++ m)) ∧
    (shutdown_vm vmid (.error (.otherError m)) post).1 =
      .error (.remoteOpFailure
        ("Failed to shutdown VM " ++ vmid ++ ": " ++ m)) ∧
    (shutdown_vm vmid (.ok "running") (.error (.otherError m))).1 =
      .error (.remoteOpFailure
        ("Failed to shutdown VM " ++ vmid ++ ": " ++ m)) ∧
    (restart_vm vmid (.error (.otherError m)) post).1 =
      .error (.remoteOpFailure ("Failed to reboot VM " ++ vmid ++ ": " ++ m)) ∧
    (restart_vm vmid (.ok "running") (.error (.otherError m))).1 =
      .error (.remoteOpFailure ("Failed to reboot VM " ++ vmid ++ ": " ++ m)) ∧
    ((delete_vm vmid (.error (.otherError m)) post).1 =
      if pyIn "not found" (pyLower m) then
        .error (.preconditionViolation ("VM " ++ vmid ++ " not found"))
      else
        .error (.remoteOpFailure
          ("Failed to delete VM " ++ vmid ++ ": " ++ m))) ∧
    (delete_vm vmid (.ok "stopped") (.error (.otherError m))).1 =
      .error (.remoteOpFailure ("Failed to delete VM " ++ vmid ++ ": " ++ m)) ∧
    (create_vm vmid name 512 1 (.ok "stopped")
        (fun _ => .error (.otherError m))).1 =
      .error (.remoteOpFailure ("Failed to create VM " ++ vmid ++ ": " ++ m)) ∧
    (∀ (sr : Except Exc String) (p : Except Exc PyVal)
       (cp : CreateSpec → Except Exc Unit) (err : Error),
      ((start_vm vmid sr p).1 = .error err ∨
       (stop_vm vmid sr p).1 = .error err ∨
       (shutdown_vm vmid sr p).1 = .error err ∨
       (restart_vm vmid sr p).1 = .error err ∨
       (delete_vm vmid sr p).1 = .error err ∨
       (create_vm vmid name 512 1 sr cp).1 = .error err) →
        (∃ a, err = .preconditionViolation a) ∨
        (∃ b, err = .remoteOpFailure b)) := by
  refine ⟨rfl, rfl, rfl, rfl, rfl, rfl, rfl, rfl, ?_, rfl, rfl, ?_⟩
  · show (delete_vm vmid (.error (.otherError m)) post).1 = _
    cases hpm : pyIn "not found" (pyLower m) with
    | false =>
      simp only [delete_vm, delete_vm_status_check, Exc.text, hpm,
        Bool.false_eq_true, if_false, handle_error]
      rfl
    | true =>
      simp only [delete_vm, delete_vm_status_check, Exc.text, hpm,
        if_true, handle_error]
  · intro sr p cp err _
    cases err with
    | preconditionViolation a => exact Or.inl ⟨a, rfl⟩
    | remoteOpFailure b => exact Or.inr ⟨b, rfl⟩

/-- Witness for `remote_failure_classification`: the remote message
`"Connection timeout"` is wrapped verbatim everywhere; the remote message
`"VM not found"` is still wrapped verbatim on start and on delete's action
call, and reinterpreted only at delete's status read; and a concrete error
outcome falls under the two kinds. -/
theorem remote_failure_classification_witness :
    (start_vm "100" (.error (.otherError "Connection timeout"))
        (.ok .other)).1 =
      .error (.remoteOpFailure "Failed to start VM 100: Connection timeout") ∧
    (start_vm "100" (.error (.otherError "VM not found")) (.ok .other)).1 =
      .error (.remoteOpFailure "Failed to start VM 100: VM not found") ∧
    (delete_vm "100" (.ok "stopped")
        (.error (.otherError "VM not found"))).1 =
      .error (.remoteOpFailure "Failed to delete VM 100: VM not found") ∧
    (delete_vm "100" (.error (.otherError "Connection timeout"))
        (.ok .other)).1 =
      .error (.remoteOpFailure
        "Failed to delete VM 100: Connection timeout") ∧
    (delete_vm "100" (.error (.otherError "VM not found")) (.ok .other)).1 =
      .error (.preconditionViolation "VM 100 not found") ∧
    ((∃ a, Error.preconditionViolation "VM 100 is already running" =
        .preconditionViolation a) ∨
     (∃ b, Error.preconditionViolation "VM 100 is already running" =
        .remoteOpFailure b)) := by
  have hct := remote_failure_classification "100" "test-vm"
    "Connection timeout" (.ok .other)
  have hnf := remote_failure_classification "100" "test-vm"
    "VM not found" (.ok .other)
  refine ⟨hct.1, hnf.1, hnf.2.2.2.2.2.2.2.2.2.1, ?_, ?_, ?_⟩
  · have h := hct.2.2.2.2.2.2.2.2.1
    rw [h]
    simp [show pyIn "not found" (pyLower "Connection timeout") = false
      from by decide]
  · have h := hnf.2.2.2.2.2.2.2.2.1
    rw [h]
    simp [show pyIn "not found" (pyLower "VM not found") = true
      from by decide]
  · exact hct.2.2.2.2.2.2.2.2.2.2.2 (.ok "running") (.ok .other)
      (fun _ => .ok ()) (.preconditionViolation "VM 100 is already running")
      (Or.inl rfl)

/-- Helper: on a node list whose per-node VM enumerations all succeed, the
node loop of `get_vms` returns one enriched record per enumerated VM, in
node order then per-node VM order. -/
theorem get_vms_loop_all_ok (vmLists : String → List CoarseVM)
    (configGet : String → String → Except Exc VMConfig) (nodes : List String) :
    get_vms_loop (fun n => .ok (vmLists n)) configGet nodes =
      .ok (nodes.flatMap fun n => (vmLists n).map (enrichVM configGet n)) := by
  induction nodes with
  | nil => simp [get_vms_loop]
  | cons hd tl ih => simp [get_vms_loop, ih]

/-- C6: when node and per-node VM enumeration succeed, every enumerated VM
contributes a record to the `get_vms` result (its enrichment is `enrichVM`,
so no record is omitted by an enrichment failure), and whenever that VM's
config fetch raises, its record is exactly the coarse entry's fields with
`cpus` degraded to the `"N/A"` sentinel. -/
theorem get_vms_never_drops_on_config_failure (nodes : List String)
    (vmLists : String → List CoarseVM)
    (configGet : String → String → Except Exc VMConfig)
    (n : String) (vm : CoarseVM)
    (hn : n ∈ nodes) (hvm : vm ∈ vmLists n) :
    ∃ r, get_vms (.ok nodes) (fun n0 => .ok (vmLists n0)) configGet = .ok r ∧
      enrichVM configGet n vm ∈ r ∧
      ∀ e : Exc, configGet n vm.vmid = .error e →
        enrichVM configGet n vm =
          { vmid := vm.vmid
            name := vm.name
            status := vm.status
            node := n
            cpus := .na
            memUsed := vm.mem.getD 0
            memTotal := vm.maxmem.getD 0 } := by
  refine ⟨nodes.flatMap fun n0 => (vmLists n0).map (enrichVM configGet n0),
    ?_, ?_, ?_⟩
  · simp [get_vms, get_vms_loop_all_ok]
  · exact List.mem_flatMap.mpr ⟨n, hn, List.mem_map_of_mem _ hvm⟩
  · intro e he
    simp [enrichVM, he]

/-- Witness for `get_vms_never_drops_on_config_failure`: one node with two
VMs, the config fetch for VM 100 raising. -/
theorem get_vms_never_drops_witness :
    ∃ r, get_vms (.ok ["node1"])
        (fun _ => .ok
          [{ vmid := "100", name := "web", status := "running",
             mem := some 512, maxmem := some 1024 },
           { vmid := "101", name := "db", status := "stopped",
             mem := none, maxmem := some 2048 }])
        (fun _ v =>
          if v = "100" then .error (.otherError "Connection timeout")
          else .ok { cores := some 2 }) = .ok r ∧
      enrichVM
        (fun _ v =>
          if v = "100" then .error (.otherError "Connection timeout")
          else .ok { cores := some 2 })
        "node1"
        { vmid := "100", name := "web", status := "running",
          mem := some 512, maxmem := some 1024 } ∈ r ∧
      ∀ e : Exc,
        (fun _ v =>
          if v = "100" then .error (.otherError "Connection timeout")
          else .ok { cores := some 2 } :
          String → String → Except Exc VMConfig) "node1" "100" = .error e →
        enrichVM
          (fun _ v =>
            if v = "100" then .error (.otherError "Connection timeout")
            else .ok { cores := some 2 })
          "node1"
          { vmid := "100", name := "web", status := "running",
            mem := some 512, maxmem := some 1024 } =
          { vmid := "100", name := "web", status := "running", node := "node1",
            cpus := .na, memUsed := 512, memTotal := 1024 } :=
  get_vms_never_drops_on_config_failure ["node1"]
    (fun _ =>
      [{ vmid := "100", name := "web", status := "running",
         mem := some 512, maxmem := some 1024 },
       { vmid := "101", name := "db", status := "stopped",
         mem := none, maxmem := some 2048 }])
    (fun _ v =>
      if v = "100" then .error (.otherError "Connection timeout")
      else .ok { cores := some 2 })
    "node1"
    { vmid := "100", name := "web", status := "running",
      mem := some 512, maxmem := some 1024 }
    (by simp) (by simp)

/-- Helper: if some node's VM enumeration raises, the node loop of `get_vms`
fails, with an exception that itself came from a node's enumeration. -/
theorem get_vms_loop_error_of_mem
    (vmsGet : String → Except Exc (List CoarseVM))
    (configGet : String → String → Except Exc VMConfig) :
    ∀ (nodes : List String) (n : String) (e : Exc),
      n ∈ nodes → vmsGet n = .error e →
      ∃ e2, get_vms_loop vmsGet configGet nodes = .error e2 ∧
        ∃ n2, vmsGet n2 = .error e2 := by
  intro nodes
  induction nodes with
  | nil => intro n e hn; exact absurd hn (List.not_mem_nil n)
  | cons hd tl ih =>
    intro n e hn he
    cases hhd : vmsGet hd with
    | error e0 =>
      exact ⟨e0, by simp [get_vms_loop, hhd], hd, hhd⟩
    | ok vms =>
      have hn' : n ∈ tl := by
        rcases List.mem_cons.mp hn with h | h
        · exact absurd he (by simp [h, hhd])
        · exact h
      obtain ⟨e2, hloop, n2, hn2⟩ := ih n e hn' he
      exact ⟨e2, by simp [get_vms_loop, hhd, hloop], n2, hn2⟩

/-- C9: a failure of the top-level node enumeration, or of any node's VM
enumeration, makes the whole `get_vms` listing fail as a single Remote
Operation Failure (`"Failed to get VMs: ..."`) with no partial list
returned; here every remote enumeration exception is of the non-`ValueError`
kind the remote plane raises. -/
theorem get_vms_aborts_on_enumeration_failure (m : String)
    (vmsGet : String → Except Exc (List CoarseVM))
    (configGet : String → String → Except Exc VMConfig)
    (nodes : List String) (n : String) (e : Exc)
    (hn : n ∈ nodes) (he : vmsGet n = .error e)
    (hkind : ∀ n2 e2, vmsGet n2 = .error e2 → ∃ m2, e2 = .otherError m2) :
    get_vms (.error (.otherError m)) vmsGet configGet =
      .error (.remoteOpFailure ("Failed to get VMs: " ++ m)) ∧
    ∃ m3, get_vms (.ok nodes) vmsGet configGet =
      .error (.remoteOpFailure ("Failed to get VMs: " ++ m3)) := by
  constructor
  · simp [get_vms, handle_error]
  · obtain ⟨e2, hloop, n2, hn2⟩ :=
      get_vms_loop_error_of_mem vmsGet configGet nodes n e hn he
    obtain ⟨m2, rfl⟩ := hkind n2 e2 hn2
    exact ⟨m2, by simp [get_vms, hloop, handle_error]⟩

/-- Witness for `get_vms_aborts_on_enumeration_failure`: two nodes, the
second node's VM enumeration raising `"Connection timeout"`. -/
theorem get_vms_aborts_witness :
    get_vms (.error (.otherError "Authentication failed"))
        (fun n => if n = "node2"
          then .error (.otherError "Connection timeout") else .ok [])
        (fun _ _ => .ok { cores := some 1 }) =
      .error (.remoteOpFailure "Failed to get VMs: Authentication failed") ∧
    ∃ m3, get_vms (.ok ["node1", "node2"])
        (fun n => if n = "node2"
          then .error (.otherError "Connection timeout") else .ok [])
        (fun _ _ => .ok { cores := some 1 }) =
      .error (.remoteOpFailure ("Failed to get VMs: " ++ m3)) :=
  get_vms_aborts_on_enumeration_failure "Authentication failed"
    (fun n => if n = "node2"
      then .error (.otherError "Connection timeout") else .ok [])
    (fun _ _ => .ok { cores := some 1 })
    ["node1", "node2"] "node2" (.otherError "Connection timeout")
    (by simp) (by simp)
    (by
      intro n2 e2 h
      by_cases hc : n2 = "node2"
      · rw [hc] at h
        simp only [if_pos rfl] at h
        exact ⟨"Connection timeout", (Except.error.inj h).symm⟩
      · simp [hc] at h)

end ProxmoxMCP
